import Mathlib

/-!
Verification development for a document-management front-end.

The repository is a React/TypeScript browser client.  The parts relevant to
the claims are embedded shallowly below:

* `Store` models the browser `localStorage` as an association list of
  string keys to string values, with `getItem` / `setItem` / `removeItem`
  following the Web Storage semantics (`setItem` replaces, `getItem`
  returns the stored value or `none`).
* `AuthState` and the operations `restore`, `login1`, `register1`,
  `logout1` embed `frontend/src/stores/authStore.ts` (the zustand store
  created there).  HTTP responses are passed in explicitly as
  `Except String _` values; the trailing `Nat` in each operation's result
  counts the HTTP requests the operation issued on that path.
* `AuthState2` and `login2`, `register2`, `logout2` embed the second,
  divergent auth-store variant bundled in `frontend/src/App.tsx`
  (lines 80-141): its login fetches `access_token`, mutates the axios
  default `Authorization` header, then fetches the user from `/auth/me`;
  its register chains into login; failures are rethrown unchanged.
* JavaScript truthiness of a possibly-absent string
  (`!!localStorage.getItem('token')`) is `truthyStr`: `null` and the
  empty string are falsy, every other string is truthy.
-/

namespace DMS

/-! ## Browser local storage -/

/-- `localStorage` modelled as an association list from keys to values. -/
abbrev Store := List (String × String)

/-- `localStorage.getItem k`: the first value stored under `k`, or `none`. -/
def getItem : Store → String → Option String
  | [], _ => none
  | (k', v) :: rest, k => if k' = k then some v else getItem rest k

/-- `localStorage.removeItem k`: delete every entry under `k`. -/
def removeItem (st : Store) (k : String) : Store :=
  st.filter (fun p => p.1 ≠ k)

/-- `localStorage.setItem k v`: replace the binding of `k` by `v`. -/
def setItem (st : Store) (k v : String) : Store :=
  (k, v) :: removeItem st k

/-- JavaScript double-negation truthiness of a string-or-null value:
`!!null = false`, `!!"" = false`, and `!!s = true` for non-empty `s`. -/
def truthyStr : Option String → Bool
  | none => false
  | some s => if s = "" then false else true

theorem getItem_setItem_same (st : Store) (k v : String) :
    getItem (setItem st k v) k = some v := by
  simp [setItem, getItem]

theorem getItem_removeItem_same (st : Store) (k : String) :
    getItem (removeItem st k) k = none := by
  induction st with
  | nil => rfl
  | cons p rest ih =>
      by_cases h : p.1 = k
      · simpa [removeItem, h] using ih
      · simpa [removeItem, getItem, h] using ih

theorem getItem_removeItem_ne (st : Store) (k k' : String) (h : k' ≠ k) :
    getItem (removeItem st k) k' = getItem st k' := by
  induction st with
  | nil => rfl
  | cons p rest ih =>
      by_cases hp : p.1 = k
      · have hpk' : p.1 ≠ k' := by rw [hp]; exact fun hk => h hk.symm
        have hdrop : removeItem (p :: rest) k = removeItem rest k := by
          simp [removeItem, hp]
        rw [hdrop, ih]
        cases p with
        | mk a b => simp [getItem, hpk']
      · have hkeep : removeItem (p :: rest) k = p :: removeItem rest k := by
          simp [removeItem, hp]
        rw [hkeep]
        cases p with
        | mk a b =>
            by_cases hk' : a = k'
            · simp [getItem, hk']
            · simp [getItem, hk', ih]

theorem getItem_setItem_ne (st : Store) (k v k' : String) (h : k' ≠ k) :
    getItem (setItem st k v) k' = getItem st k' := by
  have hne : k ≠ k' := fun hk => h hk.symm
  simp [setItem, getItem, hne, getItem_removeItem_ne st k k' h]

/-! ## Auth store, first variant (`frontend/src/stores/authStore.ts`) -/

/-- The user profile shape of the first auth-store variant. -/
structure User where
  id : String
  username : String
  email : String
deriving DecidableEq

/-- `JSON.stringify` of a `User` as produced by the store (string escaping
inside the fields is elided; the fields this app handles are plain). -/
def serializeUser (u : User) : String :=
  "\x7b\"id\":\"" ++ u.id ++ "\",\"username\":\"" ++ u.username ++
    "\",\"email\":\"" ++ u.email ++ "\"\x7d"

/-- Inverse of `serializeUser` on exactly the strings it emits;
other strings decode to `none`. -/
def decodeUser (s : String) : Option User :=
  if s.startsWith "\x7b\"id\":\"" && s.endsWith "\"\x7d" then
    let inner := (s.drop ("\x7b\"id\":\"".length)).dropRight ("\"\x7d".length)
    match inner.splitOn "\",\"username\":\"" with
    | [idv, rest] =>
        match rest.splitOn "\",\"email\":\"" with
        | [un, em] => some ⟨idv, un, em⟩
        | _ => none
    | _ => none
  else none

/-- `JSON.parse(localStorage.getItem('user') || 'null')` for the first
variant's user shape. -/
def parseUser : Option String → Option User
  | none => none
  | some s => if s = "null" then none else decodeUser s

/-- In-memory zustand state of the first auth-store variant. -/
structure AuthState where
  token : Option String
  user : Option User
  isAuthenticated : Bool
deriving DecidableEq

/-- The data a successful `POST /auth/login` (or `/auth/register`) response
carries in the first variant: `response.data = { token, user }`. -/
structure LoginData where
  token : String
  user : User
deriving DecidableEq

/-- Initial state of the store: restored from `localStorage`
(`authStore.ts` lines 20-22).  `isAuthenticated` is the JavaScript
truthiness `!!localStorage.getItem('token')`. -/
def restore (st : Store) : AuthState :=
  { token := getItem st "token"
  , user := parseUser (getItem st "user")
  , isAuthenticated := truthyStr (getItem st "token") }

/-- `login` of `authStore.ts` (lines 24-43).  The HTTP response is passed
in as `r`; on success the token and serialized user are persisted and the
state replaced; on any failure the caught error is replaced by
`Error('Invalid credentials')` and nothing is touched.  The final `Nat`
counts HTTP requests issued (exactly one `axios.post` on every path). -/
def login1 (s : AuthState) (st : Store) (r : Except String LoginData) :
    AuthState × Store × Except String Unit × Nat :=
  match r with
  | .ok d =>
      let st1 := setItem st "token" d.token
      let st2 := setItem st1 "user" (serializeUser d.user)
      (⟨some d.token, some d.user, true⟩, st2, .ok (), 1)
  | .error _ => (s, st, .error "Invalid credentials", 1)

/-- `register` of `authStore.ts` (lines 45-65); identical shape to `login`
but the generic failure message is `Registration failed`. -/
def register1 (s : AuthState) (st : Store) (r : Except String LoginData) :
    AuthState × Store × Except String Unit × Nat :=
  match r with
  | .ok d =>
      let st1 := setItem st "token" d.token
      let st2 := setItem st1 "user" (serializeUser d.user)
      (⟨some d.token, some d.user, true⟩, st2, .ok (), 1)
  | .error _ => (s, st, .error "Registration failed", 1)

/-- `logout` of `authStore.ts` (lines 67-75): remove the two storage keys,
then reset the in-memory state.  It is a total, synchronous function. -/
def logout1 (s : AuthState) (st : Store) : AuthState × Store :=
  let _ := s
  (⟨none, none, false⟩, removeItem (removeItem st "token") "user")

/-! ### Reachable session states, first variant -/

/-- One user-visible operation on the first-variant store, with the HTTP
outcome it observed. -/
inductive AuthEv where
  | loginOk (d : LoginData)
  | loginErr (msg : String)
  | registerOk (d : LoginData)
  | registerErr (msg : String)
  | doLogout
deriving DecidableEq

/-- Effect of one operation on state and storage. -/
def step1 (p : AuthState × Store) : AuthEv → AuthState × Store
  | .loginOk d => ((login1 p.1 p.2 (.ok d)).1, (login1 p.1 p.2 (.ok d)).2.1)
  | .loginErr m => ((login1 p.1 p.2 (.error m)).1, (login1 p.1 p.2 (.error m)).2.1)
  | .registerOk d => ((register1 p.1 p.2 (.ok d)).1, (register1 p.1 p.2 (.ok d)).2.1)
  | .registerErr m => ((register1 p.1 p.2 (.error m)).1, (register1 p.1 p.2 (.error m)).2.1)
  | .doLogout => logout1 p.1 p.2

/-- The session state and storage after restoring from `st0` and running
the operations `evs` in order: every reachable configuration has this
form. -/
def run1 (st0 : Store) (evs : List AuthEv) : AuthState × Store :=
  evs.foldl step1 (restore st0, st0)

/-! ## Auth store, second variant (bundled in `frontend/src/App.tsx`) -/

/-- User profile shape returned by `GET /auth/me` in the second variant. -/
structure User2 where
  username : String
  email : String
  organization : Option String
  role : String
deriving DecidableEq

/-- `JSON.stringify` of the `/auth/me` response data; `undefined` optional
fields are omitted, as `JSON.stringify` does (escaping elided). -/
def serializeUser2 (u : User2) : String :=
  "\x7b\"username\":\"" ++ u.username ++ "\",\"email\":\"" ++ u.email ++
    (match u.organization with
     | none => ""
     | some o => "\",\"organization\":\"" ++ o) ++
    "\",\"role\":\"" ++ u.role ++ "\"\x7d"

/-- Inverse of `serializeUser2` on exactly the strings it emits. -/
def decodeUser2 (s : String) : Option User2 :=
  if s.startsWith "\x7b\"username\":\"" && s.endsWith "\"\x7d" then
    let inner := (s.drop ("\x7b\"username\":\"".length)).dropRight ("\"\x7d".length)
    match inner.splitOn "\",\"email\":\"" with
    | [un, rest] =>
        match rest.splitOn "\",\"organization\":\"" with
        | [rest2] =>
            match rest2.splitOn "\",\"role\":\"" with
            | [em, ro] => some ⟨un, em, none, ro⟩
            | _ => none
        | [em, rest3] =>
            match rest3.splitOn "\",\"role\":\"" with
            | [org, ro] => some ⟨un, em, some org, ro⟩
            | _ => none
        | _ => none
    | _ => none
  else none

/-- `JSON.parse(localStorage.getItem('user') || 'null')` for the second
variant's user shape. -/
def parseUser2 : Option String → Option User2
  | none => none
  | some s => if s = "null" then none else decodeUser2 s

/-- In-memory zustand state of the second auth-store variant. -/
structure AuthState2 where
  token : Option String
  user : Option User2
  isAuthenticated : Bool
deriving DecidableEq

/-- Initial state of the second store variant, restored from
`localStorage` (`App.tsx` lines 81-83); textually the same restore logic
as the first variant. -/
def restore2 (st : Store) : AuthState2 :=
  { token := getItem st "token"
  , user := parseUser2 (getItem st "user")
  , isAuthenticated := truthyStr (getItem st "token") }

/-- `login` of the second variant (`App.tsx` lines 85-113).  `postRes` is
the `POST /auth/login` outcome carrying `access_token`; `meRes` the
`GET /auth/me` outcome.  The axios default `Authorization` header (`hdr`)
is set to `Bearer <token>` as soon as the first request succeeds — before
the `me` request — and the catch block rethrows the original error
unchanged.  The final `Nat` counts HTTP requests issued on that path. -/
def login2 (s : AuthState2) (st : Store) (hdr : Option String)
    (postRes : Except String String) (meRes : Except String User2) :
    AuthState2 × Store × Option String × Except String Unit × Nat :=
  match postRes with
  | .error m => (s, st, hdr, .error m, 1)
  | .ok tok =>
      let hdr1 : Option String := some ("Bearer " ++ tok)
      match meRes with
      | .error m => (s, st, hdr1, .error m, 2)
      | .ok u =>
          let st1 := setItem st "token" tok
          let st2 := setItem st1 "user" (serializeUser2 u)
          (⟨some tok, some u, true⟩, st2, hdr1, .ok (), 2)

/-- `register` of the second variant (`App.tsx` lines 115-125): posts the
registration, then chains into `login`; the catch rethrows the original
error unchanged. -/
def register2 (s : AuthState2) (st : Store) (hdr : Option String)
    (regRes : Except String Unit) (postRes : Except String String)
    (meRes : Except String User2) :
    AuthState2 × Store × Option String × Except String Unit × Nat :=
  match regRes with
  | .error m => (s, st, hdr, .error m, 1)
  | .ok _ =>
      let r := login2 s st hdr postRes meRes
      (r.1, r.2.1, r.2.2.1, r.2.2.2.1, 1 + r.2.2.2.2)

/-- `logout` of the second variant (`App.tsx` lines 127-140): clears the
two storage keys, deletes the axios default `Authorization` header, and
resets the in-memory state. -/
def logout2 (s : AuthState2) (st : Store) (hdr : Option String) :
    AuthState2 × Store × Option String :=
  let _ := s
  let _ := hdr
  (⟨none, none, false⟩, removeItem (removeItem st "token") "user", none)

/-! ### Reachable session states, second variant -/

/-- One user-visible operation on the second-variant store with the HTTP
outcomes it observed. -/
inductive AuthEv2 where
  | login (postRes : Except String String) (meRes : Except String User2)
  | register (regRes : Except String Unit) (postRes : Except String String)
      (meRes : Except String User2)
  | doLogout

/-- Effect of one second-variant operation on state, storage and the
axios default header. -/
def step2 (p : AuthState2 × Store × Option String) :
    AuthEv2 → AuthState2 × Store × Option String
  | .login pr mr =>
      ((login2 p.1 p.2.1 p.2.2 pr mr).1, (login2 p.1 p.2.1 p.2.2 pr mr).2.1,
        (login2 p.1 p.2.1 p.2.2 pr mr).2.2.1)
  | .register rr pr mr =>
      ((register2 p.1 p.2.1 p.2.2 rr pr mr).1,
        (register2 p.1 p.2.1 p.2.2 rr pr mr).2.1,
        (register2 p.1 p.2.1 p.2.2 rr pr mr).2.2.1)
  | .doLogout => logout2 p.1 p.2.1 p.2.2

/-- Session state, storage and header after restoring from `st0` and
running the second-variant operations `evs` in order. -/
def run2 (st0 : Store) (evs : List AuthEv2) : AuthState2 × Store × Option String :=
  evs.foldl step2 (restore2 st0, st0, none)

/-! ## JavaScript numbers, as far as the upload progress needs them

The only float behaviour the progress computation exercises is division by
zero producing signed infinities and `0/0` producing `NaN`; away from zero
denominators the values stay rational.  `JSNum` carries exactly that. -/

/-- A JavaScript number: a finite (rational) value, a signed infinity, or
`NaN`.  Rounding of finite values is immaterial to the properties proved
here and is elided. -/
inductive JSNum where
  | num (q : ℚ)
  | posInf
  | negInf
  | nan
deriving DecidableEq

/-- JavaScript division of finite numbers: `a / 0` is `NaN` when `a = 0`
and a signed infinity otherwise. -/
def jsDiv (a b : ℚ) : JSNum :=
  if b = 0 then
    if a = 0 then .nan else if 0 < a then .posInf else .negInf
  else .num (a / b)

/-- JavaScript multiplication of a number by a finite constant. -/
def jsMul (x : JSNum) (c : ℚ) : JSNum :=
  match x with
  | .num q => .num (q * c)
  | .posInf => if 0 < c then .posInf else if c < 0 then .negInf else .nan
  | .negInf => if 0 < c then .negInf else if c < 0 then .posInf else .nan
  | .nan => .nan

/-- `progressEvent.total || 0`: an absent total becomes `0` (and a zero
total stays `0`). -/
def orZero : Option ℚ → ℚ
  | none => 0
  | some t => t

/-- The progress percentage computed by `Upload.tsx` line 51:
`progressEvent.loaded / (progressEvent.total || 0) * 100`. -/
def computeProgress (loaded : ℚ) (total : Option ℚ) : JSNum :=
  jsMul (jsDiv loaded (orZero total)) 100

/-! ## Upload flow (`frontend/src/pages/Upload.tsx`)

Each entry of the page's `files` array is an immutable JavaScript object;
every update replaces the matching entry by a spread-clone, so updates
create a fresh object identity.  `TaskObj.oid` models that identity: the
`f === file` comparisons of the source are `oid` equality, and each
spread-clone receives a fresh `oid` drawn from a counter `ν` threaded
through the steps.  Statuses therefore live at list positions — `map`
preserves positions, `onDrop` appends, `removeFile` filters. -/

/-- Status of one upload task (`UploadedFile.status`). -/
inductive UStatus where
  | waiting
  | uploading
  | processing
  | complete
  | error
deriving DecidableEq

/-- One entry of the `files` state array. -/
structure TaskObj where
  oid : Nat
  status : UStatus
  progress : JSNum
  emsg : Option String
deriving DecidableEq

/-- `onDrop`: append `n` fresh tasks, each `waiting` with progress 0. -/
def dropFiles (n : Nat) (fs : List TaskObj) (ν : Nat) : List TaskObj × Nat :=
  (fs ++ (List.range n).map (fun i => ⟨ν + i, .waiting, .num 0, none⟩), ν + n)

/-- First step of `uploadFile file` (lines 43-47): clone the entry that
is `=== file` with status `uploading` and progress 0. -/
def setUploading (file : TaskObj) (fs : List TaskObj) (ν : Nat) :
    List TaskObj × Nat :=
  (fs.map (fun f => if f.oid = file.oid then
      { f with status := .uploading, progress := .num 0, oid := ν } else f),
    ν + 1)

/-- `onUploadProgress` callback (lines 50-57): clone the entry that is
`=== file` with the computed progress. -/
def setProgressOf (file : TaskObj) (p : JSNum) (fs : List TaskObj) (ν : Nat) :
    List TaskObj × Nat :=
  (fs.map (fun f => if f.oid = file.oid then { f with progress := p, oid := ν } else f),
    ν + 1)

/-- Post-upload step (lines 60-64): clone the entry that is `=== file`
with status `processing`, progress 100. -/
def setProcessing (file : TaskObj) (fs : List TaskObj) (ν : Nat) :
    List TaskObj × Nat :=
  (fs.map (fun f => if f.oid = file.oid then
      { f with status := .processing, progress := .num 100, oid := ν } else f),
    ν + 1)

/-- Post-delay step (lines 69-73): clone the entry that is `=== file`
with status `complete`. -/
def setComplete (file : TaskObj) (fs : List TaskObj) (ν : Nat) :
    List TaskObj × Nat :=
  (fs.map (fun f => if f.oid = file.oid then { f with status := .complete, oid := ν } else f),
    ν + 1)

/-- Catch branch (lines 78-82): clone the entry that is `=== file` with
status `error` and the message `Upload failed`. -/
def setErrorOf (file : TaskObj) (fs : List TaskObj) (ν : Nat) :
    List TaskObj × Nat :=
  (fs.map (fun f => if f.oid = file.oid then
      { f with status := .error, emsg := some "Upload failed", oid := ν } else f),
    ν + 1)

/-- `removeFile` (lines 86-88): drop the entry that is `=== file`. -/
def removeFileStep (file : TaskObj) (fs : List TaskObj) (ν : Nat) :
    List TaskObj × Nat :=
  (fs.filter (fun f => f.oid ≠ file.oid), ν)

/-- The status transitions the spec's upload state machine allows between
one rendered list state and the next, at a fixed list position: stay put,
or move along `waiting → uploading → processing → complete`, or
`uploading → error`. -/
def allowedStep (a b : UStatus) : Bool :=
  (a = b) ||
  (a = .waiting && b = .uploading) ||
  (a = .uploading && b = .processing) ||
  (a = .processing && b = .complete) ||
  (a = .uploading && b = .error)

/-! ## Route guard (`frontend/src/App.tsx` lines 11-14, `App.js` 17-26) -/

/-- What a guard expression renders: the protected child, or a
`<Navigate to=.../>` redirect. -/
inductive Rendered where
  | child
  | navigate (dest : String)
deriving DecidableEq

/-- `ProtectedRoute` of `App.tsx`:
`isAuthenticated ? children : <Navigate to="/login" />`.  The per-route
guards of `App.js` (`isAuthenticated ? <Dashboard/> : <Navigate to="/login"/>`)
compute the same function of `isAuthenticated`. -/
def protectedRoute (isAuthenticated : Bool) : Rendered :=
  if isAuthenticated then .child else .navigate "/login"

/-! ## Documents list views

Two divergent implementations fetch the document list on mount.  The
first (`components/Documents.tsx`) keeps an `error` state and renders it;
the second (`pages/Documents.tsx`) has no error state at all — its catch
only writes to the console. -/

/-- Document shape consumed by the first Documents view. -/
structure Doc1 where
  id : String
  title : String
  filename : String
  uploadDate : String
  fileType : String
  categories : List String
  summary : String
deriving DecidableEq

/-- State of the first Documents view: `documents`, `loading`, `error`
(initially `[]`, `true`, `null`). -/
structure DocsView1 where
  documents : List Doc1
  loading : Bool
  error : Option String
deriving DecidableEq

def initDocsView1 : DocsView1 :=
  { documents := [], loading := true, error := none }

/-- `fetchDocuments` of the first view (lines 22-39): on success replace
the list and stop loading; on any failure set the error string and stop
loading.  The catch swallows the exception, so the embedding is total. -/
def fetchDocuments1 (v : DocsView1) (r : Except String (List Doc1)) : DocsView1 :=
  match r with
  | .ok ds => { v with documents := ds, loading := false }
  | .error _ => { v with error := some "Failed to fetch documents", loading := false }

/-- The error text the first view's render shows: the spinner branch wins
while loading, then `if (error) return <div>{error}</div>`. -/
def renderedError1 (v : DocsView1) : Option String :=
  if v.loading then none else v.error

/-- Document shape consumed by the second Documents view. -/
structure Doc2 where
  id : String
  title : String
  category : String
  tags : List String
  uploadedAt : String
  summary : String
  confidence_score : ℚ
deriving DecidableEq

/-- State of the second Documents view: it has `documents`, `loading`,
`searchQuery`, `selectedCategory` and `categories` — and no error field. -/
structure DocsView2 where
  documents : List Doc2
  loading : Bool
  searchQuery : String
  selectedCategory : String
  categories : List String
deriving DecidableEq

def initDocsView2 : DocsView2 :=
  { documents := [], loading := true, searchQuery := ""
  , selectedCategory := "", categories := [] }

/-- `Array.from(new Set(xs))`: deduplicate keeping first occurrences. -/
def uniqueFirst (seen : List String) : List String → List String
  | [] => []
  | a :: l =>
      if a ∈ seen then uniqueFirst seen l else a :: uniqueFirst (a :: seen) l

/-- `fetchDocuments` of the second view (lines 27-51): on success replace
the list and the unique category list; on failure only `console.error` —
no view state other than `loading` (set by `finally`) changes. -/
def fetchDocuments2 (v : DocsView2) (r : Except String (List Doc2)) : DocsView2 :=
  match r with
  | .ok ds =>
      { v with documents := ds
             , categories := uniqueFirst [] (ds.map (·.category))
             , loading := false }
  | .error _ => { v with loading := false }

/-- The error text the second view's render shows.  Its JSX has a loading
skeleton and the populated table and nothing else: no branch ever renders
an error string (the state carries none), so this is constantly `none`. -/
def renderedError2 (v : DocsView2) : Option String :=
  let _ := v
  none

/-! ## Dashboard aggregation (`frontend/src/components/Dashboard.tsx`) -/

/-- Document shape the dashboard consumes (`recentUploads` entries). -/
structure DashDoc where
  id : String
  name : String
  uploadDate : String
  category : String
deriving DecidableEq

/-- One step of the counting fold,
`categories[doc.category] = (categories[doc.category] || 0) + 1`: bump the
entry in place, or append a new key (JavaScript object insertion order). -/
def bump : List (String × Nat) → String → List (String × Nat)
  | [], c => [(c, 1)]
  | (k, v) :: rest, c =>
      if k = c then (k, v + 1) :: rest else (k, v) :: bump rest c

/-- The aggregate state the dashboard derives. -/
structure DashStats where
  total : Nat
  categories : List (String × Nat)
  recentUploads : List DashDoc
deriving DecidableEq

/-- `fetchStats` aggregation (lines 29-39): fold the counting update over
the fetched list, take its length as total and its first five entries as
recent uploads. -/
def computeStats (docs : List DashDoc) : DashStats :=
  { total := docs.length
  , categories := docs.foldl (fun m d => bump m d.category) []
  , recentUploads := docs.take 5 }

/-- Reading a count out of the aggregate, `categories[c] || 0`. -/
def getCount : List (String × Nat) → String → Nat
  | [], _ => 0
  | (k, v) :: rest, c => if k = c then v else getCount rest c

/-- Reference fold the claim compares against: the number of occurrences
of category `c` in the fetched list. -/
def countOcc (docs : List DashDoc) (c : String) : Nat :=
  (docs.filter (fun d => d.category = c)).length

/-! # Theorems -/

/-! ## Session token / authentication flag (claim C1) -/

/-- The invariant the reachable session states actually satisfy:
the flag forces a present token, and a present non-empty token forces the
flag. -/
def tokenAuthInv (t : Option String) (b : Bool) : Prop :=
  (b = true → t ≠ none) ∧ (∀ s, t = some s → s ≠ "" → b = true)

theorem tokenAuthInv_some_true (t : String) : tokenAuthInv (some t) true :=
  ⟨fun _ h => (nomatch h), fun _ _ _ => rfl⟩

theorem tokenAuthInv_none_false : tokenAuthInv none false :=
  ⟨fun h => (nomatch h), fun _ h => (nomatch h)⟩

/-- The restored initial state satisfies the invariant: the flag is the
truthiness of exactly the stored token. -/
theorem tokenAuthInv_restore (st : Store) :
    tokenAuthInv (getItem st "token") (truthyStr (getItem st "token")) := by
  cases h : getItem st "token" with
  | none => exact tokenAuthInv_none_false
  | some v =>
      refine ⟨fun _ h' => (nomatch h'), fun s hs hne => ?_⟩
      obtain rfl : v = s := by injection hs
      simp [truthyStr, hne]

theorem tokenAuthInv_step1 (p : AuthState × Store) (e : AuthEv)
    (h : tokenAuthInv p.1.token p.1.isAuthenticated) :
    tokenAuthInv (step1 p e).1.token (step1 p e).1.isAuthenticated := by
  cases e with
  | loginOk d => exact tokenAuthInv_some_true d.token
  | loginErr m => exact h
  | registerOk d => exact tokenAuthInv_some_true d.token
  | registerErr m => exact h
  | doLogout => exact tokenAuthInv_none_false

theorem tokenAuthInv_run1 (evs : List AuthEv) (p : AuthState × Store)
    (h : tokenAuthInv p.1.token p.1.isAuthenticated) :
    tokenAuthInv (evs.foldl step1 p).1.token (evs.foldl step1 p).1.isAuthenticated := by
  induction evs generalizing p with
  | nil => exact h
  | cons e rest ih => exact ih _ (tokenAuthInv_step1 p e h)

theorem tokenAuthInv_step2 (p : AuthState2 × Store × Option String) (e : AuthEv2)
    (h : tokenAuthInv p.1.token p.1.isAuthenticated) :
    tokenAuthInv (step2 p e).1.token (step2 p e).1.isAuthenticated := by
  cases e with
  | login pr mr =>
      cases pr with
      | error m => exact h
      | ok tok =>
          cases mr with
          | error m => exact h
          | ok u => exact tokenAuthInv_some_true tok
  | register rr pr mr =>
      cases rr with
      | error m => exact h
      | ok u =>
          cases pr with
          | error m => exact h
          | ok tok =>
              cases mr with
              | error m => exact h
              | ok u2 => exact tokenAuthInv_some_true tok
  | doLogout => exact tokenAuthInv_none_false

theorem tokenAuthInv_run2 (evs : List AuthEv2) (p : AuthState2 × Store × Option String)
    (h : tokenAuthInv p.1.token p.1.isAuthenticated) :
    tokenAuthInv (evs.foldl step2 p).1.token (evs.foldl step2 p).1.isAuthenticated := by
  induction evs generalizing p with
  | nil => exact h
  | cons e rest ih => exact ih _ (tokenAuthInv_step2 p e h)

/-- C1, counterexample.  The claim asserts that in every reachable state
`isAuthenticated` is true exactly when `token !== null`, and that this is
equivalent to the token being present and non-empty.  Both formulations
fail on an empty-string token, because `isAuthenticated` is computed with
JavaScript truthiness (`!!localStorage.getItem('token')`, where `!! ""` is
false) on restore, but is set to `true` unconditionally on a successful
login.  Restoring from a store holding `token = ""` gives a reachable
state with `token !== null` yet `isAuthenticated = false`; a successful
login whose response carries the token `""` gives a reachable state with
`isAuthenticated = true` yet an empty token. -/
theorem c1_counterexample :
    ((run1 [("token", "")] []).1.token = some "" ∧
      (run1 [("token", "")] []).1.isAuthenticated = false) ∧
    ((run1 [] [AuthEv.loginOk ⟨"", ⟨"u1", "alice", "alice@example.com"⟩⟩]).1.token
        = some "" ∧
      (run1 [] [AuthEv.loginOk ⟨"", ⟨"u1", "alice", "alice@example.com"⟩⟩]).1.isAuthenticated
        = true) :=
  ⟨⟨rfl, rfl⟩, ⟨rfl, rfl⟩⟩

/-- C1 (amended): in every reachable session-store state of either store
variant — restored from arbitrary storage and evolved by any sequence of
login, register, logout operations — `isAuthenticated = true` implies the
token is present, and a present non-empty token implies
`isAuthenticated = true`.  (The two full equivalences of the original
claim fail only for empty-string tokens, as `c1_counterexample` shows.) -/
theorem c1_auth_token_invariant :
    (∀ (st0 : Store) (evs : List AuthEv),
        ((run1 st0 evs).1.isAuthenticated = true → (run1 st0 evs).1.token ≠ none) ∧
        (∀ t, (run1 st0 evs).1.token = some t → t ≠ "" →
          (run1 st0 evs).1.isAuthenticated = true)) ∧
    (∀ (st0 : Store) (evs : List AuthEv2),
        ((run2 st0 evs).1.isAuthenticated = true → (run2 st0 evs).1.token ≠ none) ∧
        (∀ t, (run2 st0 evs).1.token = some t → t ≠ "" →
          (run2 st0 evs).1.isAuthenticated = true)) := by
  constructor
  · intro st0 evs
    exact tokenAuthInv_run1 evs (restore st0, st0) (tokenAuthInv_restore st0)
  · intro st0 evs
    exact tokenAuthInv_run2 evs (restore2 st0, st0, none) (tokenAuthInv_restore st0)

/-- C1 witness: both implications exercised at concrete reachable
states. -/
theorem c1_auth_token_invariant_witness :
    (run1 [("token", "x")] []).1.token ≠ none ∧
    (run2 [("token", "x")] []).1.isAuthenticated = true :=
  ⟨(c1_auth_token_invariant.1 [("token", "x")] []).1 rfl,
    (c1_auth_token_invariant.2 [("token", "x")] []).2 "x" rfl (by decide)⟩

/-! ## Logout (claim C3) -/

/-- C3: for every prior in-memory state and every prior storage content,
logout resets the state to `token = null`, `user = null`,
`isAuthenticated = false` and removes the storage entries under `token`
and `user`, in both store variants (the second also clears the axios
default header); the in-memory result is the same constant whatever the
prior state, other storage keys are untouched, and the operation is a
total synchronous function, so it never fails. -/
theorem c3_logout_clears :
    (∀ (s : AuthState) (st : Store),
        (logout1 s st).1 = ⟨none, none, false⟩ ∧
        getItem (logout1 s st).2 "token" = none ∧
        getItem (logout1 s st).2 "user" = none ∧
        (∀ k, k ≠ "token" → k ≠ "user" → getItem (logout1 s st).2 k = getItem st k)) ∧
    (∀ (s : AuthState2) (st : Store) (hdr : Option String),
        (logout2 s st hdr).1 = ⟨none, none, false⟩ ∧
        (logout2 s st hdr).2.2 = none ∧
        getItem (logout2 s st hdr).2.1 "token" = none ∧
        getItem (logout2 s st hdr).2.1 "user" = none) := by
  have htok : ∀ st : Store,
      getItem (removeItem (removeItem st "token") "user") "token" = none := by
    intro st
    rw [getItem_removeItem_ne _ _ _ (by decide), getItem_removeItem_same]
  have huser : ∀ st : Store,
      getItem (removeItem (removeItem st "token") "user") "user" = none := by
    intro st
    exact getItem_removeItem_same _ _
  constructor
  · intro s st
    refine ⟨rfl, htok st, huser st, fun k hk1 hk2 => ?_⟩
    show getItem (removeItem (removeItem st "token") "user") k = getItem st k
    rw [getItem_removeItem_ne _ _ _ hk2, getItem_removeItem_ne _ _ _ hk1]
  · intro s st hdr
    exact ⟨rfl, rfl, htok st, huser st⟩

/-- C3 witness: a concrete run, including preservation of an unrelated
key. -/
theorem c3_logout_clears_witness :
    getItem (logout1 ⟨some "t", none, true⟩ [("token", "t"), ("theme", "dark")]).2
        "theme" = some "dark" :=
  ((c3_logout_clears.1 ⟨some "t", none, true⟩ [("token", "t"), ("theme", "dark")]).2.2.2
      "theme" (by decide) (by decide)).trans rfl

/-! ## Successful login (claim C4) -/

/-- C4: for every login whose HTTP request(s) succeed, the store
afterwards has `isAuthenticated = true`, holds the returned token and
user in memory, and has persisted the token under the storage key `token`
and the JSON-serialized user under the key `user` — in both store
variants. -/
theorem c4_login_success_persists :
    (∀ (s : AuthState) (st : Store) (d : LoginData),
        (login1 s st (.ok d)).1 = ⟨some d.token, some d.user, true⟩ ∧
        getItem (login1 s st (.ok d)).2.1 "token" = some d.token ∧
        getItem (login1 s st (.ok d)).2.1 "user" = some (serializeUser d.user)) ∧
    (∀ (s : AuthState2) (st : Store) (hdr : Option String) (tok : String) (u : User2),
        (login2 s st hdr (.ok tok) (.ok u)).1 = ⟨some tok, some u, true⟩ ∧
        getItem (login2 s st hdr (.ok tok) (.ok u)).2.1 "token" = some tok ∧
        getItem (login2 s st hdr (.ok tok) (.ok u)).2.1 "user"
          = some (serializeUser2 u)) := by
  constructor
  · intro s st d
    refine ⟨rfl, ?_, ?_⟩
    · show getItem (setItem (setItem st "token" d.token) "user"
          (serializeUser d.user)) "token" = some d.token
      rw [getItem_setItem_ne _ _ _ _ (by decide), getItem_setItem_same]
    · exact getItem_setItem_same _ _ _
  · intro s st hdr tok u
    refine ⟨rfl, ?_, ?_⟩
    · show getItem (setItem (setItem st "token" tok) "user"
          (serializeUser2 u)) "token" = some tok
      rw [getItem_setItem_ne _ _ _ _ (by decide), getItem_setItem_same]
    · exact getItem_setItem_same _ _ _

/-! ## Failed login / register (claims C8, C9) -/

/-- C8, counterexample.  The claim asserts every failing login rejects
with the generic message `Invalid credentials`.  That is what the
`authStore.ts` variant does, but the divergent variant bundled in
`App.tsx` rethrows the underlying error unchanged (its catch block is
`console.error(...); throw error`), so a failing login there surfaces
the raw error, not the generic message. -/
theorem c8_counterexample :
    (login2 ⟨none, none, false⟩ [] none
        (Except.error "Request failed with status code 500")
        (Except.error "unused")).2.2.2.1
      = Except.error "Request failed with status code 500" ∧
    (login2 ⟨none, none, false⟩ [] none
        (Except.error "Request failed with status code 500")
        (Except.error "unused")).2.2.2.1
      ≠ Except.error "Invalid credentials" := by
  refine ⟨rfl, fun h => ?_⟩
  rw [show (login2 ⟨none, none, false⟩ [] none
      (Except.error "Request failed with status code 500")
      (Except.error "unused")).2.2.2.1
    = Except.error "Request failed with status code 500" from rfl] at h
  injection h with h'
  exact absurd h' (by decide)

/-- C8 (amended): every failing login or register rejects after a single
attempt — each HTTP request is issued at most once, with no retry and no
backoff.  In the `authStore.ts` variant the rejection carries the generic
message (`Invalid credentials` for login, `Registration failed` for
register); in the `App.tsx` variant the rejection propagates the
underlying error unchanged. -/
theorem c8_failure_single_attempt :
    (∀ (s : AuthState) (st : Store) (m : String),
        login1 s st (.error m) = (s, st, .error "Invalid credentials", 1)) ∧
    (∀ (s : AuthState) (st : Store) (m : String),
        register1 s st (.error m) = (s, st, .error "Registration failed", 1)) ∧
    (∀ (s : AuthState) (st : Store) (d : LoginData),
        (login1 s st (.ok d)).2.2.2 = 1 ∧ (register1 s st (.ok d)).2.2.2 = 1) ∧
    (∀ (s : AuthState2) (st : Store) (hdr : Option String) (m : String)
        (mer : Except String User2),
        login2 s st hdr (.error m) mer = (s, st, hdr, .error m, 1)) ∧
    (∀ (s : AuthState2) (st : Store) (hdr : Option String) (tok m : String),
        login2 s st hdr (.ok tok) (.error m)
          = (s, st, some ("Bearer " ++ tok), .error m, 2)) ∧
    (∀ (s : AuthState2) (st : Store) (hdr : Option String) (m : String)
        (pr : Except String String) (mer : Except String User2),
        register2 s st hdr (.error m) pr mer = (s, st, hdr, .error m, 1)) :=
  ⟨fun _ _ _ => rfl, fun _ _ _ => rfl, fun _ _ _ => ⟨rfl, rfl⟩,
    fun _ _ _ _ _ => rfl, fun _ _ _ _ _ => rfl, fun _ _ _ _ _ _ => rfl⟩

/-- C9: a failing login is atomic with respect to the session state: the
in-memory state and the storage are exactly what they were before the
call, in the `authStore.ts` variant, and also in the `App.tsx` variant on
both of its failure paths (login post fails; `/auth/me` fails).  (In the
latter's second failure path the axios default header has been mutated,
but no field of the claimed footprint changes.) -/
theorem c9_failed_login_atomic :
    (∀ (s : AuthState) (st : Store) (m : String),
        (login1 s st (.error m)).1 = s ∧ (login1 s st (.error m)).2.1 = st) ∧
    (∀ (s : AuthState2) (st : Store) (hdr : Option String) (m : String)
        (mer : Except String User2),
        (login2 s st hdr (.error m) mer).1 = s ∧
        (login2 s st hdr (.error m) mer).2.1 = st) ∧
    (∀ (s : AuthState2) (st : Store) (hdr : Option String) (tok m : String),
        (login2 s st hdr (.ok tok) (.error m)).1 = s ∧
        (login2 s st hdr (.ok tok) (.error m)).2.1 = st) :=
  ⟨fun _ _ _ => ⟨rfl, rfl⟩, fun _ _ _ _ _ => ⟨rfl, rfl⟩, fun _ _ _ _ _ => ⟨rfl, rfl⟩⟩

/-! ## Failed documents fetch (claim C5) -/

/-- C5, counterexample.  The claim asserts that every failed fetch of the
document list displays an error string.  The `pages/Documents.tsx`
variant's catch block only calls `console.error`: its view state has no
error field (the resulting state is the initial one with `loading` turned
off), and its render has no error branch, so no error string is ever
displayed there. -/
theorem c5_counterexample :
    fetchDocuments2 initDocsView2 (Except.error "Network Error")
      = { documents := [], loading := false, searchQuery := ""
        , selectedCategory := "", categories := [] } ∧
    ¬ ∃ e : String,
        renderedError2 (fetchDocuments2 initDocsView2 (Except.error "Network Error"))
          = some e := by
  refine ⟨rfl, ?_⟩
  rintro ⟨e, h⟩
  simp [renderedError2] at h

/-- C5 (amended): for every failed fetch of the document list, the view's
document list stays empty (its initial value) and the exception is caught
(both handlers are total functions of the response).  The
`components/Documents.tsx` variant displays the error string
`Failed to fetch documents`; the `pages/Documents.tsx` variant displays
no error string — its catch only logs to the console. -/
theorem c5_failed_fetch :
    (∀ m : String,
        (fetchDocuments1 initDocsView1 (.error m)).documents = [] ∧
        renderedError1 (fetchDocuments1 initDocsView1 (.error m))
          = some "Failed to fetch documents") ∧
    (∀ m : String,
        (fetchDocuments2 initDocsView2 (.error m)).documents = [] ∧
        renderedError2 (fetchDocuments2 initDocsView2 (.error m)) = none) :=
  ⟨fun _ => ⟨rfl, rfl⟩, fun _ => ⟨rfl, rfl⟩⟩

/-! ## Route guard (claim C6) -/

/-- C6: the route guard renders the protected child precisely when
`isAuthenticated` read from the session store is true at render time, and
redirects to `/login` when it is false.  The guard is a pure, synchronous
function of the flag. -/
theorem c6_route_guard :
    (∀ b : Bool, (protectedRoute b = Rendered.child ↔ b = true)) ∧
    protectedRoute false = Rendered.navigate "/login" := by
  refine ⟨fun b => ?_, rfl⟩
  cases b <;> simp [protectedRoute]

/-- C6 witness: the guard at a concrete flag value. -/
theorem c6_route_guard_witness : protectedRoute true = Rendered.child :=
  (c6_route_guard.1 true).mpr rfl

/-! ## Dashboard aggregation (claim C7) -/

theorem getCount_bump (m : List (String × Nat)) (c' c : String) :
    getCount (bump m c') c = getCount m c + (if c' = c then 1 else 0) := by
  induction m with
  | nil => by_cases h : c' = c <;> simp [bump, getCount, h]
  | cons p rest ih =>
      cases p with
      | mk k v =>
          by_cases hk : k = c'
          · subst hk
            by_cases hc : k = c <;> simp [bump, getCount, hc]
          · by_cases hc : k = c
            · have hc' : ¬ c' = c := fun h => hk (hc.trans h.symm)
              have hcc' : ¬ c = c' := fun h => hc' h.symm
              simp [bump, getCount, hk, hc, hc', hcc']
            · simp [bump, getCount, hk, hc, ih]

theorem getCount_countfold (docs : List DashDoc) (m : List (String × Nat))
    (c : String) :
    getCount (docs.foldl (fun acc d => bump acc d.category) m) c
      = getCount m c + countOcc docs c := by
  induction docs generalizing m with
  | nil => simp [countOcc]
  | cons d rest ih =>
      simp only [List.foldl_cons]
      rw [ih, getCount_bump]
      unfold countOcc
      by_cases h : d.category = c <;> (simp [List.filter_cons, h]; try omega)

/-- C7: the dashboard's client-side per-category aggregation agrees with
the reference fold: for every fetched list and every category, the count
stored for that category is the number of documents bearing it, and the
computed total is the list length.  On documents with categories
`[A, A, B]` the computed counts are exactly `A ↦ 2, B ↦ 1`. -/
theorem c7_category_counts :
    (∀ (docs : List DashDoc) (c : String),
        getCount (computeStats docs).categories c = countOcc docs c ∧
        (computeStats docs).total = docs.length) ∧
    ((computeStats [⟨"1", "a", "d1", "A"⟩, ⟨"2", "b", "d2", "A"⟩,
        ⟨"3", "c", "d3", "B"⟩]).categories = [("A", 2), ("B", 1)] ∧
      (computeStats [⟨"1", "a", "d1", "A"⟩, ⟨"2", "b", "d2", "A"⟩,
        ⟨"3", "c", "d3", "B"⟩]).total = 3) := by
  refine ⟨fun docs c => ⟨?_, rfl⟩, rfl, rfl⟩
  have h := getCount_countfold docs [] c
  simpa [computeStats, getCount] using h

/-! ## Upload status transitions (claim C2) -/

theorem map_fix {α : Type} (g : α → α) (l : List α) (h : ∀ x ∈ l, g x = x) :
    l.map g = l := by
  induction l with
  | nil => rfl
  | cons a t ih =>
      rw [List.map_cons, h a (by simp), ih (fun x hx => h x (by simp [hx]))]

/-- C2: upload-task statuses change only along
`waiting → uploading → processing → complete` (plus
`uploading → error`), and no other transition occurs.  The conjuncts
cover every write to the `files` state in `Upload.tsx`, position by
position:

1.  the initial update of `uploadFile` moves the clicked task (the Upload
    button renders only for `waiting` tasks, and task objects are
    immutable, so any entry `=== file` is `waiting`) to `uploading` and
    leaves every other position unchanged;
2.  that update replaces the matching entry by a spread-clone with a
    fresh identity, so afterwards no entry is `=== file` any more;
3.-6.  consequently the later updates of the same `uploadFile` call —
    progress, `processing`, `complete`, `error` — which still compare
    against the captured original object, match no entry and change no
    status (their intended effect would also follow the allowed path, but
    under the source's `f === file` comparison they are no-ops);
7.  `onDrop` leaves existing positions unchanged and appends tasks that
    start at `waiting`;
8.  `removeFile` only deletes an entry, so every surviving task keeps its
    status (it appears unchanged in the previous list). -/
theorem c2_upload_status_transitions :
    (∀ (file : TaskObj) (fs : List TaskObj) (ν : Nat),
        (∀ f ∈ fs, f.oid = file.oid → f.status = .waiting) →
        List.Forall₂ (fun a b => allowedStep a.status b.status = true) fs
          (setUploading file fs ν).1) ∧
    (∀ (file : TaskObj) (fs : List TaskObj) (ν : Nat),
        file.oid ≠ ν →
        ∀ g ∈ (setUploading file fs ν).1, g.oid ≠ file.oid) ∧
    (∀ (file : TaskObj) (p : JSNum) (fs : List TaskObj) (ν : Nat),
        (∀ f ∈ fs, f.oid ≠ file.oid) → (setProgressOf file p fs ν).1 = fs) ∧
    (∀ (file : TaskObj) (fs : List TaskObj) (ν : Nat),
        (∀ f ∈ fs, f.oid ≠ file.oid) → (setProcessing file fs ν).1 = fs) ∧
    (∀ (file : TaskObj) (fs : List TaskObj) (ν : Nat),
        (∀ f ∈ fs, f.oid ≠ file.oid) → (setComplete file fs ν).1 = fs) ∧
    (∀ (file : TaskObj) (fs : List TaskObj) (ν : Nat),
        (∀ f ∈ fs, f.oid ≠ file.oid) → (setErrorOf file fs ν).1 = fs) ∧
    (∀ (n : Nat) (fs : List TaskObj) (ν : Nat),
        (dropFiles n fs ν).1.take fs.length = fs ∧
        ∀ g ∈ (dropFiles n fs ν).1.drop fs.length, g.status = .waiting) ∧
    (∀ (file : TaskObj) (fs : List TaskObj) (ν : Nat),
        ∀ g ∈ (removeFileStep file fs ν).1, g ∈ fs) := by
  refine ⟨?_, ?_, ?_, ?_, ?_, ?_, ?_, ?_⟩
  · intro file fs ν h
    rw [show (setUploading file fs ν).1 = fs.map (fun f =>
        if f.oid = file.oid then
          { f with status := .uploading, progress := .num 0, oid := ν }
        else f) from rfl]
    rw [List.forall₂_map_right_iff]
    refine List.forall₂_same.2 (fun f hf => ?_)
    by_cases hoid : f.oid = file.oid
    · rw [if_pos hoid]
      rw [show ({ f with status := .uploading, progress := .num 0, oid := ν }
          : TaskObj).status = UStatus.uploading from rfl, h f hf hoid]
      decide
    · rw [if_neg hoid]
      cases f.status <;> decide
  · intro file fs ν hν g hg
    obtain ⟨f, hf, rfl⟩ := List.mem_map.1 hg
    by_cases hoid : f.oid = file.oid
    · rw [if_pos hoid]
      exact fun h => hν h.symm
    · rw [if_neg hoid]
      exact hoid
  · intro file p fs ν h
    exact map_fix _ _ (fun f hf => if_neg (h f hf))
  · intro file fs ν h
    exact map_fix _ _ (fun f hf => if_neg (h f hf))
  · intro file fs ν h
    exact map_fix _ _ (fun f hf => if_neg (h f hf))
  · intro file fs ν h
    exact map_fix _ _ (fun f hf => if_neg (h f hf))
  · intro n fs ν
    have hform : (dropFiles n fs ν).1
        = fs ++ (List.range n).map (fun i => ⟨ν + i, .waiting, .num 0, none⟩) := rfl
    rw [hform]
    refine ⟨List.take_left fs _, fun g hg => ?_⟩
    rw [List.drop_left] at hg
    obtain ⟨i, hi, rfl⟩ := List.mem_map.1 hg
    rfl
  · intro file fs ν g hg
    exact List.mem_of_mem_filter hg

/-- C2 witness: the transitions at concrete lists — the clicked waiting
task moves to uploading, and a later update whose captured object is no
longer in the list changes nothing. -/
theorem c2_upload_status_transitions_witness :
    List.Forall₂ (fun (a b : TaskObj) => allowedStep a.status b.status = true)
      ([⟨0, .waiting, .num 0, none⟩] : List TaskObj)
      (setUploading ⟨0, .waiting, .num 0, none⟩
        ([⟨0, .waiting, .num 0, none⟩] : List TaskObj) 1).1 ∧
    (setProcessing ⟨0, .waiting, .num 0, none⟩ [⟨1, .uploading, .num 0, none⟩] 2).1
      = [⟨1, .uploading, .num 0, none⟩] :=
  ⟨c2_upload_status_transitions.1 ⟨0, .waiting, .num 0, none⟩
      [⟨0, .waiting, .num 0, none⟩] 1 (by decide),
    c2_upload_status_transitions.2.2.2.1 ⟨0, .waiting, .num 0, none⟩
      [⟨1, .uploading, .num 0, none⟩] 2 (by decide)⟩

/-! ## Upload progress percentage (claim C10) -/

/-- C10: the claim asserts the computed progress percentage is always a
well-defined finite number in `[0, 100]`, the division being guarded
against a zero or absent total.  The code's `progressEvent.loaded /
(progressEvent.total || 0) * 100` turns an absent total into a zero
divisor — `|| 0` is no guard — so a progress event with `loaded = 500`
and no total yields `Infinity`, a zero-loaded event with no total yields
`NaN`, and a zero total likewise yields `Infinity`; none of these is a
finite number in `[0, 100]`. -/
theorem c10_progress_division_by_zero :
    computeProgress 500 none = JSNum.posInf ∧
    computeProgress 0 none = JSNum.nan ∧
    computeProgress 500 (some 0) = JSNum.posInf ∧
    ¬ ∃ q : ℚ, computeProgress 500 none = JSNum.num q ∧ 0 ≤ q ∧ q ≤ 100 := by
  have h500 : computeProgress 500 none = JSNum.posInf := by
    norm_num [computeProgress, orZero, jsDiv, jsMul]
  refine ⟨h500, ?_, ?_, ?_⟩
  · norm_num [computeProgress, orZero, jsDiv, jsMul]
  · norm_num [computeProgress, orZero, jsDiv, jsMul]
  · rintro ⟨q, hq, -, -⟩
    rw [h500] at hq
    exact nomatch hq

end DMS
